import Mathlib

/-!
Verification development for the `gradchoice-pro` repository.

The repository consists of a single edge endpoint, `api/find-programs.js`,
present in two variants (the file holds two versions of the handler).  Both
variants are a pure orchestration over two mocked upstreams: a web-search
provider and a language-model provider.  We embed both variants as pure Lean
functions of the request, the environment (credentials) and the two upstream
responses, over a model of JavaScript runtime values.

Modelling notes:
* JS numbers are modelled exactly as a decimal mantissa/exponent pair
  (`mant * 10 ^ exp10`) plus NaN and the two infinities; binary64 rounding,
  JS float formatting, and numeric-value identification of distinct
  representations are not modelled (the handlers never compute with or
  compare numbers; no claim depends on those).
* JS values use a first-order encoding in which arrays and objects carry
  their own cons/nil spine (`arrCons`/`arrNil`, `objCons`/`objNil`), so that
  every function on them is plain structural recursion; `jsArrOfList` and
  `jsObjOfList` build them from Lean lists.
* `JSON.parse` is modelled by an executable recursive-descent parser over the
  characters of the string, and `JSON.stringify` by an executable serializer.
* `toLowerCase`/`trim` are modelled over the character list (ASCII case
  folding; no claim depends on Unicode case rules).
* Thrown exceptions are modelled with `Except String`; the top-level
  `try/catch` of each handler converts an error into the 500 envelope,
  exactly as in the source.
-/

/-- JS number: a finite decimal `mant * 10 ^ exp10`, NaN, or an infinity. -/
inductive JsNum where
  | finite (mant : Int) (exp10 : Int)
  | nan
  | posInf
  | negInf
deriving DecidableEq

/-- A JavaScript runtime value (the fragment the handler manipulates):
`undefined`, `null`, booleans, numbers, strings, arrays and plain objects.
Arrays and objects carry their own spine: a well-formed array is a chain of
`arrCons` ending in `arrNil`, a well-formed object a chain of `objCons`
ending in `objNil`; the parser and the handlers only build well-formed
values. -/
inductive Js where
  | undefined
  | null
  | bool (b : Bool)
  | num (n : JsNum)
  | str (s : String)
  | arrNil
  | arrCons (hd tl : Js)
  | objNil
  | objCons (key : String) (val tl : Js)
deriving DecidableEq

/-- Build an array value from a list of elements. -/
def jsArrOfList : List Js → Js
  | [] => .arrNil
  | v :: vs => .arrCons v (jsArrOfList vs)

/-- Build an object value from an ordered field list. -/
def jsObjOfList : List (String × Js) → Js
  | [] => .objNil
  | f :: fs => .objCons f.1 f.2 (jsObjOfList fs)

namespace Js

/-- The elements of an array value (empty for anything else). -/
def arrElems : Js → List Js
  | .arrCons h t => h :: t.arrElems
  | _ => []

/-- `Array.isArray`. -/
def isArray : Js → Bool
  | .arrNil => true
  | .arrCons _ _ => true
  | _ => false

/-- Whether a value is `null` or `undefined` (the nullish values of JS). -/
def isNullish : Js → Bool
  | .undefined => true
  | .null => true
  | _ => false

/-- The nullish-coalescing operator `v ?? d`. -/
def coalesce (v d : Js) : Js := if v.isNullish then d else v

/-- JS truthiness (`Boolean(v)` / condition position). -/
def truthy : Js → Bool
  | .undefined => false
  | .null => false
  | .bool b => b
  | .num (.finite m _) => m != 0
  | .num .nan => false
  | .num .posInf => true
  | .num .negInf => true
  | .str s => s != ""
  | .arrNil => true
  | .arrCons _ _ => true
  | .objNil => true
  | .objCons _ _ _ => true

/-- Property read on a value already known not to be nullish: objects look up
the field, every other receiver yields `undefined` (as in JS). -/
def get : Js → String → Js
  | .objCons k v t, key => if k == key then v else get t key
  | _, _ => .undefined

/-- Property read that throws a `TypeError` on a nullish receiver, as a plain
`p.k` access does in JS. -/
def getEx (v : Js) (k : String) : Except String Js :=
  match v with
  | .null => .error ("TypeError: Cannot read properties of null (reading " ++ k ++ ")")
  | .undefined => .error ("TypeError: Cannot read properties of undefined (reading " ++ k ++ ")")
  | w => .ok (w.get k)

/-- Optional-chaining property read `v?.k`. -/
def optGet (v : Js) (k : String) : Js :=
  if v.isNullish then .undefined else v.get k

/-- Optional-chaining index read `v?.[0]`. -/
def optIdx0 (v : Js) : Js :=
  match v with
  | .arrCons h _ => h
  | .str s =>
    match s.data with
    | [] => .undefined
    | c :: _ => .str (String.singleton c)
  | .objCons k w t => get (.objCons k w t) "0"
  | _ => .undefined

end Js

/-! ## String helpers modelling the JS string methods used by the handler -/

/-- ASCII lower-casing of one character (the strings the handler lower-cases
are ASCII; Unicode case folding is not modelled). -/
def charLower (c : Char) : Char :=
  if 'A' ≤ c && c ≤ 'Z' then Char.ofNat (c.toNat + 32) else c

/-- `s.toLowerCase()`. -/
def strLower (s : String) : String := String.mk (s.data.map charLower)

/-- Whitespace stripped by `String.prototype.trim`. -/
def isTrimWs (c : Char) : Bool :=
  c == ' ' || c == '\t' || c == '\n' || c == '\r'

/-- `s.trim()`. -/
def strTrim (s : String) : String :=
  String.mk (((s.data.dropWhile isTrimWs).reverse.dropWhile isTrimWs).reverse)

/-- `s.slice(0, n)` on a string, modelled on the character list. -/
def strSlice (s : String) (n : Nat) : String := String.mk (s.data.take n)

/-- Substring test helper: does the second list occur at the start of the
first? -/
def headMatches : List Char → List Char → Bool
  | _, [] => true
  | [], _ :: _ => false
  | h :: hs, n :: ns => h == n && headMatches hs ns

/-- Substring test: does `needle` occur anywhere in `hay`? -/
def containsSub (hay needle : List Char) : Bool :=
  match hay with
  | [] => headMatches [] needle
  | _ :: hs => headMatches hay needle || containsSub hs needle

/-- Case-insensitive test for rate/quota phrasing, modelling
`/quota|rate/i.test(err)`. -/
def rateQuota (body : String) : Bool :=
  containsSub (strLower body).data "quota".data ||
    containsSub (strLower body).data "rate".data

/-- Rendering of a JS number for `String(v)`.  JS float formatting is
simplified: non-negative powers of ten render exactly, a negative exponent
renders in mantissa/exponent notation; no claim depends on the fractional
case. -/
def jsNumToString : JsNum → String
  | .nan => "NaN"
  | .posInf => "Infinity"
  | .negInf => "-Infinity"
  | .finite m e =>
    if 0 ≤ e then toString m ++ String.mk (List.replicate e.toNat (Char.ofNat 48))
    else toString m ++ "e" ++ toString e

/-- `String(v)` / template-literal interpolation of a JS value; arrays render
as the comma-joined rendering of their elements with nullish elements empty,
plain objects as `[object Object]`.  An `arrCons` tail renders as the
rendering of the remaining elements preceded by a comma. -/
def jsToString : Js → String
  | .undefined => "undefined"
  | .null => "null"
  | .bool b => cond b "true" "false"
  | .num n => jsNumToString n
  | .str s => s
  | .arrNil => ""
  | .arrCons h t =>
    (if h.isNullish then "" else jsToString h) ++
      (match t with
       | .arrNil => ""
       | t2 => "," ++ jsToString t2)
  | .objNil => "[object Object]"
  | .objCons _ _ _ => "[object Object]"

/-! ## A model of `JSON.parse`

An executable recursive-descent parser, producing a `Js` value.  Duplicate
object keys keep the first position but the last value, as in JS. -/

/-- JSON whitespace. -/
def isJsonWs (c : Char) : Bool :=
  c == ' ' || c == '\t' || c == '\n' || c == '\r'

/-- Drop leading JSON whitespace. -/
def skipWs : List Char → List Char
  | [] => []
  | c :: cs => if isJsonWs c then skipWs cs else c :: cs

/-- Value of a hex digit. -/
def hexVal (c : Char) : Option Nat :=
  if c.isDigit then some (c.toNat - 48)
  else if 'a' ≤ c && c ≤ 'f' then some (c.toNat - 87)
  else if 'A' ≤ c && c ≤ 'F' then some (c.toNat - 55)
  else none

/-- Parse the body of a JSON string after the opening quote, accumulating
characters in reverse. -/
def parseStrAux : List Char → List Char → Option (String × List Char)
  | _, [] => none
  | acc, '"' :: cs => some (String.mk acc.reverse, cs)
  | acc, '\\' :: 'u' :: a :: b :: c :: d :: cs =>
    match hexVal a, hexVal b, hexVal c, hexVal d with
    | some x, some y, some z, some w =>
        parseStrAux (Char.ofNat (((x * 16 + y) * 16 + z) * 16 + w) :: acc) cs
    | _, _, _, _ => none
  | acc, '\\' :: e :: cs =>
    if e == '"' then parseStrAux ('"' :: acc) cs
    else if e == '\\' then parseStrAux ('\\' :: acc) cs
    else if e == '/' then parseStrAux ('/' :: acc) cs
    else if e == 'n' then parseStrAux ('\n' :: acc) cs
    else if e == 't' then parseStrAux ('\t' :: acc) cs
    else if e == 'r' then parseStrAux ('\r' :: acc) cs
    else if e == 'b' then parseStrAux (Char.ofNat 8 :: acc) cs
    else if e == 'f' then parseStrAux (Char.ofNat 12 :: acc) cs
    else none
  | acc, c :: cs =>
    if c.toNat < 32 then none else parseStrAux (c :: acc) cs

/-- Split off a run of leading decimal digits. -/
def takeDigits : List Char → List Char × List Char
  | [] => ([], [])
  | c :: cs =>
    if c.isDigit then
      let p := takeDigits cs
      (c :: p.1, p.2)
    else ([], c :: cs)

/-- Numeric value of a digit run. -/
def digitsToNat (ds : List Char) : Nat :=
  ds.foldl (fun a c => a * 10 + (c.toNat - 48)) 0

/-- Assemble a JSON number from sign, integer digits, fraction digits and
decimal exponent. -/
def mkJsonNum (neg : Bool) (ids fds : List Char) (ex : Int) : JsNum :=
  let m : Int := (digitsToNat (ids ++ fds) : Int)
  .finite (if neg then -m else m) (ex - (fds.length : Int))

/-- Parse the optional exponent part and finish the number. -/
def parseNumExp (neg : Bool) (ids fds : List Char) : List Char → Option (JsNum × List Char)
  | c :: cs =>
    if c == 'e' || c == 'E' then
      let p : Bool × List Char :=
        match cs with
        | '-' :: r => (true, r)
        | '+' :: r => (false, r)
        | r => (false, r)
      match takeDigits p.2 with
      | ([], _) => none
      | (eds, rest) =>
        let ev : Int := (digitsToNat eds : Int)
        some (mkJsonNum neg ids fds (if p.1 then -ev else ev), rest)
    else some (mkJsonNum neg ids fds 0, c :: cs)
  | [] => some (mkJsonNum neg ids fds 0, [])

/-- Parse a JSON number. -/
def parseNum (cs : List Char) : Option (JsNum × List Char) :=
  let p : Bool × List Char :=
    match cs with
    | '-' :: r => (true, r)
    | r => (false, r)
  match takeDigits p.2 with
  | ([], _) => none
  | (ids, cs2) =>
    if ids.length > 1 && ids.head? == some '0' then none
    else
      match cs2 with
      | '.' :: r =>
        match takeDigits r with
        | ([], _) => none
        | (fds, cs3) => parseNumExp p.1 ids fds cs3
      | _ => parseNumExp p.1 ids [] cs2

/-- Insert a field, keeping the first position but the last value for a
duplicate key (JS object semantics). -/
def setField : List (String × Js) → String → Js → List (String × Js)
  | [], k, v => [(k, v)]
  | f :: fs, k, v =>
    if f.1 == k then (f.1, v) :: fs else f :: setField fs k v

mutual

/-- Parse one JSON value (fuel-indexed). -/
def parseVal : Nat → List Char → Option (Js × List Char)
  | 0, _ => none
  | f + 1, cs =>
    match skipWs cs with
    | 'n' :: 'u' :: 'l' :: 'l' :: r => some (.null, r)
    | 't' :: 'r' :: 'u' :: 'e' :: r => some (.bool true, r)
    | 'f' :: 'a' :: 'l' :: 's' :: 'e' :: r => some (.bool false, r)
    | '"' :: r => (parseStrAux [] r).map (fun p => (.str p.1, p.2))
    | c :: r =>
      if c == Char.ofNat 91 then parseArrRest f (skipWs r)
      else if c == Char.ofNat 123 then parseObjRest f (skipWs r)
      else (parseNum (c :: r)).map (fun p => (.num p.1, p.2))
    | [] => none

/-- Parse an array after the opening bracket (whitespace already skipped). -/
def parseArrRest : Nat → List Char → Option (Js × List Char)
  | 0, _ => none
  | f + 1, cs =>
    match cs with
    | c :: r => if c == Char.ofNat 93 then some (.arrNil, r) else parseArrElems f (c :: r) []
    | [] => none

/-- Parse the elements of a non-empty array, accumulating in reverse. -/
def parseArrElems : Nat → List Char → List Js → Option (Js × List Char)
  | 0, _, _ => none
  | f + 1, cs, acc =>
    match parseVal f cs with
    | none => none
    | some (v, r) =>
      match skipWs r with
      | ',' :: r2 => parseArrElems f r2 (v :: acc)
      | c :: r2 =>
        if c == Char.ofNat 93 then some (jsArrOfList (v :: acc).reverse, r2) else none
      | [] => none

/-- Parse an object after the opening brace (whitespace already skipped). -/
def parseObjRest : Nat → List Char → Option (Js × List Char)
  | 0, _ => none
  | f + 1, cs =>
    match cs with
    | c :: r => if c == Char.ofNat 125 then some (.objNil, r) else parseObjFields f (c :: r) []
    | [] => none

/-- Parse the members of a non-empty object. -/
def parseObjFields : Nat → List Char → List (String × Js) → Option (Js × List Char)
  | 0, _, _ => none
  | f + 1, cs, acc =>
    match skipWs cs with
    | '"' :: r =>
      match parseStrAux [] r with
      | none => none
      | some (k, r2) =>
        match skipWs r2 with
        | ':' :: r3 =>
          match parseVal f r3 with
          | none => none
          | some (v, r4) =>
            match skipWs r4 with
            | ',' :: r5 => parseObjFields f r5 (setField acc k v)
            | c :: r5 =>
              if c == Char.ofNat 125 then some (jsObjOfList (setField acc k v), r5) else none
            | [] => none
        | _ => none
    | _ => none

end

/-- `JSON.parse` on a string: parse one value and require only trailing
whitespace; `none` models the thrown `SyntaxError`. -/
def jsonParse (s : String) : Option Js :=
  match parseVal (s.length + 1) s.data with
  | some (v, rest) => if (skipWs rest).isEmpty then some v else none
  | none => none

/-! ## A model of `JSON.stringify` (for byte-identity of envelopes) -/

/-- Escape one character for a JSON string literal. -/
def escChar (c : Char) : String :=
  if c == '"' then "\\\""
  else if c == '\\' then "\\\\"
  else if c == '\n' then "\\n"
  else if c == '\r' then "\\r"
  else if c == '\t' then "\\t"
  else String.singleton c

/-- A JSON string literal. -/
def quoteStr (s : String) : String :=
  "\"" ++ String.join (s.data.map escChar) ++ "\""

/-- Whether a value is exactly `undefined`. -/
def jsIsUndefined : Js → Bool
  | .undefined => true
  | _ => false

/-- One pass computing both the `JSON.stringify` rendering of a value (first
component) and, for array/object spines, the rendered member list (second
component).  `undefined`, NaN and infinities render as `null` inside arrays;
`undefined`-valued object fields are dropped. -/
def jsStrP : Js → String × List String
  | .undefined => ("null", [])
  | .null => ("null", [])
  | .bool b => (cond b "true" "false", [])
  | .num (.finite m e) => (jsNumToString (.finite m e), [])
  | .num _ => ("null", [])
  | .str s => (quoteStr s, [])
  | .arrNil => ("[]", [])
  | .arrCons h t =>
    let ph := jsStrP h
    let pt := jsStrP t
    let elems := ph.1 :: pt.2
    ("[" ++ String.intercalate "," elems ++ "]", elems)
  | .objNil => ("\x7b\x7d", [])
  | .objCons k v t =>
    let pv := jsStrP v
    let pt := jsStrP t
    let mems := if jsIsUndefined v then pt.2 else (quoteStr k ++ ":" ++ pv.1) :: pt.2
    ("\x7b" ++ String.intercalate "," mems ++ "\x7d", mems)

/-- `JSON.stringify` of a JS value. -/
def jsStringify (v : Js) : String := (jsStrP v).1

/-! ## Shared request/response model

`api/find-programs.js` holds two variants of the same handler.  Each is a
function of the request, the process environment (the two credentials) and
the mocked responses of the two upstream `fetch` calls. -/

/-- Process environment: the two credentials (absent or present). -/
structure Env where
  tavilyKey : Option String
  openaiKey : Option String
deriving DecidableEq

/-- JS falsiness of an environment variable (absent or empty string). -/
def envFalsy : Option String → Bool
  | none => true
  | some s => s.isEmpty

/-- An inbound request: the HTTP method and the query parameters in order
(`Object.fromEntries` keeps the last value of a duplicate key). -/
structure Req where
  method : String
  params : List (String × String)
deriving DecidableEq

/-- A mocked upstream `fetch` response: HTTP status and raw body text
(`.text()` returns it; `.json()` parses it). -/
structure FetchResp where
  status : Nat
  body : String
deriving DecidableEq

/-- The `ok` flag of a fetch response (`2xx`). -/
def FetchResp.isOk (r : FetchResp) : Bool :=
  decide (200 ≤ r.status) && decide (r.status < 300)

/-- The handler's result: HTTP status plus the JSON body (headers are
constant in the source and carry no claim content). -/
structure Resp where
  status : Nat
  body : Js
deriving DecidableEq

/-- The `j`/`json` helper of the source: a body at a status. -/
def jResp (body : Js) (status : Nat) : Resp := { status := status, body := body }

/-- An error envelope `{ ok:false, error }` at a status. -/
def jfail (msg : String) (status : Nat) : Resp :=
  jResp (jsObjOfList [("ok", .bool false), ("error", .str msg)]) status

/-- `Object.fromEntries(new URL(req.url).searchParams)[k]`: the last value
bound to a key, if any. -/
def lookupParam (ps : List (String × String)) (k : String) : Option String :=
  ((ps.filter (fun p => p.1 == k)).getLast?).map (fun p => p.2)

/-- The normalized preference set of stage 1.  The second variant has no
`openai` toggle; it simply never reads `openaiOff`. -/
structure Prefs where
  gpa : String
  budget : String
  program : String
  state : String
  stemOnly : Bool
  openaiOff : Bool
deriving DecidableEq

/-- Stage 1, request normalization, with the source's defaults. -/
def normalizeReq (ps : List (String × String)) : Prefs :=
  { gpa := (lookupParam ps "gpa").getD "3.0"
    budget := (lookupParam ps "budget").getD "25000"
    program := (lookupParam ps "program").getD "Computer Science"
    state := (lookupParam ps "state").getD "Any"
    stemOnly := strLower ((lookupParam ps "stemOnly").getD "false") == "true"
    openaiOff := strLower ((lookupParam ps "openai").getD "on") == "off" }

/-- The resolved search query string (identical template in both variants). -/
def searchQuery (p : Prefs) : String :=
  "best " ++ p.program ++ " master's programs " ++
    ((if p.state != "Any" then "in " ++ p.state else "in the US") ++ " ") ++
    strTrim ("tuition, minimum GPA, GRE/GMAT policy, scholarships " ++
      (if p.stemOnly then "STEM only" else ""))

/-- One search-result snippet `{title, url, snippet}` projected from a raw
result (field values are arbitrary JS values, possibly `undefined`). -/
structure Snip where
  title : Js
  url : Js
  snippet : Js
deriving DecidableEq

/-- `results.map(r => ({title: r.title, url: r.url, snippet: r.snippet}))`;
a nullish element makes the property access throw. -/
def mkSnippets : List Js → Except String (List Snip)
  | [] => .ok []
  | r :: rs => do
    let t ← r.getEx "title"
    let u ← r.getEx "url"
    let s ← r.getEx "snippet"
    let rest ← mkSnippets rs
    pure ({ title := t, url := u, snippet := s } :: rest)

/-- The numbered digest blocks joined by blank lines (shared text of both
variants). -/
def digestBlocks (sn : List Snip) : String :=
  String.intercalate "\n\n"
    ((sn.enum).map (fun p =>
      "#" ++ toString (p.1 + 1) ++ " " ++ jsToString p.2.title ++ "\n" ++
        jsToString p.2.snippet ++ "\nURL: " ++ jsToString p.2.url))

/-- Variant 1 digest: hard-truncated with `.slice(0, 4000)`. -/
def digest1 (sn : List Snip) : String := strSlice (digestBlocks sn) 4000

/-- Variant 2 digest: no truncation is applied in the source. -/
def digest2 (sn : List Snip) : String := digestBlocks sn

/-- `const { results = [] } = await tRes.json()`: the `results` field with
an `[]` default when absent (the nullish receiver is handled by the caller,
where the destructuring throws). -/
def destructResults (tj : Js) : Js :=
  match tj.get "results" with
  | .undefined => .arrNil
  | v => v

/-- Coercion `Number.isFinite(x) ? Number(x) : null` of the normalization
stage (identical in both variants for `tuition` and `score`). -/
def coerceNum (v : Js) : Js :=
  match v with
  | .num (.finite m e) => .num (.finite m e)
  | _ => .null

/-- Coercion `String(x ?? "").trim()` of the normalization stage. -/
def coerceStr (v : Js) : Js :=
  .str (strTrim (jsToString (v.coalesce (.str ""))))

/-- Coercion `typeof x === "boolean" ? x : null` of variant 1's `stem`
field. -/
def coerceBool (v : Js) : Js :=
  match v with
  | .bool b => .bool b
  | _ => .null

/-- Variant 1 entry normalization (`stem` keeps literal booleans, else
`null`); property access on a nullish entry throws. -/
def normEntry1 (p : Js) : Except String Js := do
  let name ← p.getEx "name"
  let school ← p.getEx "school"
  let tuition ← p.getEx "tuition"
  let url ← p.getEx "url"
  let minGpa ← p.getEx "minGpa"
  let testPolicy ← p.getEx "testPolicy"
  let stem ← p.getEx "stem"
  let deadline ← p.getEx "deadline"
  let why ← p.getEx "why"
  let score ← p.getEx "score"
  pure (jsObjOfList [
    ("name", coerceStr name),
    ("school", coerceStr school),
    ("tuition", coerceNum tuition),
    ("url", coerceStr url),
    ("minGpa", minGpa.coalesce .null),
    ("testPolicy", testPolicy.coalesce .null),
    ("stem", coerceBool stem),
    ("deadline", deadline.coalesce .null),
    ("why", coerceStr why),
    ("score", coerceNum score)])

/-- Variant 2 entry normalization (`stem: Boolean(p.stem)`). -/
def normEntry2 (p : Js) : Except String Js := do
  let name ← p.getEx "name"
  let school ← p.getEx "school"
  let tuition ← p.getEx "tuition"
  let url ← p.getEx "url"
  let minGpa ← p.getEx "minGpa"
  let testPolicy ← p.getEx "testPolicy"
  let stem ← p.getEx "stem"
  let deadline ← p.getEx "deadline"
  let why ← p.getEx "why"
  let score ← p.getEx "score"
  pure (jsObjOfList [
    ("name", coerceStr name),
    ("school", coerceStr school),
    ("tuition", coerceNum tuition),
    ("url", coerceStr url),
    ("minGpa", minGpa.coalesce .null),
    ("testPolicy", testPolicy.coalesce .null),
    ("stem", .bool stem.truthy),
    ("deadline", deadline.coalesce .null),
    ("why", coerceStr why),
    ("score", coerceNum score)])

/-- `list.map(normEntry1)` with left-to-right evaluation and exception
propagation. -/
def normList1 : List Js → Except String (List Js)
  | [] => .ok []
  | p :: ps => do
    let v ← normEntry1 p
    let rest ← normList1 ps
    pure (v :: rest)

/-- `list.map(normEntry2)` with left-to-right evaluation and exception
propagation. -/
def normList2 : List Js → Except String (List Js)
  | [] => .ok []
  | p :: ps => do
    let v ← normEntry2 p
    let rest ← normList2 ps
    pure (v :: rest)

/-- One snippet-derived fallback candidate (variant 1 only). -/
def fallbackProgram (program : String) (r : Snip) : Js :=
  jsObjOfList [
    ("name", .str "(unknown — open page)"),
    ("school", r.title),
    ("tuition", .null),
    ("url", r.url),
    ("minGpa", .null),
    ("testPolicy", .null),
    ("stem", .null),
    ("deadline", .null),
    ("why", .str ("Candidate for " ++ program ++ ". Open link to confirm tuition/GPA/policy.")),
    ("score", .null)]

/-- `snippets.slice(0,3).map(...)`: the fallback candidate list. -/
def fallbackPrograms (program : String) (sn : List Snip) : List Js :=
  (sn.take 3).map (fallbackProgram program)

/-- The `query` echo object of the success envelope. -/
def queryObj (p : Prefs) : Js :=
  jsObjOfList [
    ("gpa", .str p.gpa),
    ("budget", .str p.budget),
    ("program", .str p.program),
    ("state", .str p.state),
    ("stemOnly", .bool p.stemOnly),
    ("usedQuery", .str (searchQuery p))]

/-- The success envelope (identical shape in both variants): `count` is by
construction the length of `programs`. -/
def success200 (p : Prefs) (programs : List Js) (note : Js) : Resp :=
  jResp (jsObjOfList [
    ("ok", .bool true),
    ("query", queryObj p),
    ("programs", jsArrOfList programs),
    ("notes", note),
    ("count", .num (.finite (programs.length : Int) 0))]) 200

/-! ## Variant 1 (`gpt-5` handler, lines 19–193 of the source) -/

/-- Variant 1 inner `try/catch` around parse-and-normalize: it never throws.
`raw = data?.output_text ?? ""`; a strict-parse failure — or any throw from
the normalizing `.map` — is caught and mapped to the parse-failure note; a
parsed payload without a `programs` array gets the shape note. -/
def aiParse1 (data : Js) : Option (List Js) × Js :=
  let raw := (data.optGet "output_text").coalesce (.str "")
  match jsonParse (jsToString raw) with
  | none => (none, .str "OpenAI JSON parse failed; showing web candidates")
  | some parsed =>
    if parsed.truthy && (parsed.get "programs").isArray then
      match normList1 ((parsed.get "programs").arrElems.take 3) with
      | .error _ => (none, .str "OpenAI JSON parse failed; showing web candidates")
      | .ok progs => (some progs, (parsed.get "notes").coalesce .null)
    else
      (none, .str "OpenAI returned non-JSON; showing web candidates")

/-- Variant 1 extraction stage (OpenAI block of the first handler): returns
the optional structured program list plus the diagnostic note, or an error
for the thrown `OpenAI HTTP ...` / `.json()` failures. -/
def extractStage1 (pref : Prefs) (oaiKey : Option String) (o : FetchResp) :
    Except String (Option (List Js) × Js) :=
  if !pref.openaiOff && !envFalsy oaiKey then
    if !o.isOk then
      if o.status == 429 || rateQuota o.body then
        .ok (none, .str ("OpenAI limit/quota: " ++ o.body))
      else
        .error ("OpenAI HTTP " ++ toString o.status ++ ": " ++ o.body)
    else
      match jsonParse o.body with
      | none => .error "SyntaxError: Unexpected end of JSON input"
      | some data => .ok (aiParse1 data)
  else if envFalsy oaiKey && !pref.openaiOff then
    .ok (none, .str "Missing OPENAI_API_KEY — showing web candidates")
  else if pref.openaiOff then
    .ok (none, .str "OpenAI disabled via ?openai=off — showing web candidates")
  else
    .ok (none, .null)

/-- The body of variant 1 inside its top-level `try`. -/
def run1 (env : Env) (req : Req) (tavily openai : FetchResp) : Except String Resp :=
  let pref := normalizeReq req.params
  if envFalsy env.tavilyKey then .ok (jfail "Missing TAVILY_API_KEY" 500)
  else if !tavily.isOk then
    .ok (jfail ("Tavily HTTP " ++ toString tavily.status ++ ": " ++ tavily.body) 502)
  else
    match jsonParse tavily.body with
    | none => .error "SyntaxError: Unexpected end of JSON input"
    | some tj =>
      if tj.isNullish then .error "TypeError: Cannot destructure property results of null"
      else
        let results := destructResults tj
        if !results.isArray || results.arrElems.isEmpty then
          .ok (jfail "No web results found" 404)
        else
          match mkSnippets results.arrElems with
          | .error e => .error e
          | .ok sn =>
            let _ := digest1 sn
            match extractStage1 pref env.openaiKey openai with
            | .error e => .error e
            | .ok (aiProgs, note) =>
              let programs :=
                match aiProgs with
                | some ps => ps
                | none => fallbackPrograms pref.program sn
              .ok (success200 pref programs note)

/-- Variant 1 handler: `OPTIONS` preflight, then the `try/catch` around
`run1`. -/
def handler1 (env : Env) (req : Req) (tavily openai : FetchResp) : Resp :=
  if req.method == "OPTIONS" then jResp (jsObjOfList [("ok", .bool true)]) 200
  else
    match run1 env req tavily openai with
    | .ok r => r
    | .error m => jfail m 500

/-! ## Variant 2 (`gpt-4o-mini` handler, lines 216–378 of the source) -/

/-- The probed text-output locations of the second variant:
`aiData?.output_text ?? aiData?.output?.[0]?.content?.[0]?.text ??
 aiData?.output?.[0]?.content?.[0]?.string_value ?? ""`. -/
def extractRawText2 (data : Js) : Js :=
  ((data.optGet "output_text").coalesce
    ((((((data.optGet "output").optIdx0).optGet "content").optIdx0).optGet "text").coalesce
      ((((((data.optGet "output").optIdx0).optGet "content").optIdx0).optGet "string_value").coalesce
        (.str ""))))

/-- Index of the first occurrence of a character. -/
def firstIdxOf (c : Char) : List Char → Option Nat
  | [] => none
  | x :: xs => if x == c then some 0 else (firstIdxOf c xs).map (fun i => i + 1)

/-- Index of the last occurrence of a character. -/
def lastIdxOf (c : Char) (cs : List Char) : Option Nat :=
  (firstIdxOf c cs.reverse).map (fun i => cs.length - 1 - i)

/-- `s.match(/\x7b[\s\S]*\x7d/)`: the greedy match runs from the first
opening brace to the last closing brace, when the former precedes the
latter. -/
def braceMatch (s : String) : Option String :=
  match firstIdxOf (Char.ofNat 123) s.data, lastIdxOf (Char.ofNat 125) s.data with
  | some i, some k => if i < k then some (String.mk ((s.data.drop i).take (k + 1 - i))) else none
  | _, _ => none

/-- Variant 2 parse pipeline: strict `JSON.parse`, then on failure the
brace-substring retry; `parsed = m ? JSON.parse(m[0]) : null`, so a missing
brace match yields the JS value `null`.  A failing retry parse, or `.match`
on a non-string, throws out of the `catch` to the top level. -/
def parseChain2 (rawText : Js) : Except String Js :=
  match jsonParse (jsToString rawText) with
  | some v => .ok v
  | none =>
    match rawText with
    | .str s =>
      match braceMatch s with
      | some sub =>
        match jsonParse sub with
        | some v => .ok v
        | none => .error "SyntaxError: Unexpected token in JSON"
      | none => .ok .null
    | _ => .error "TypeError: rawText.match is not a function"

/-- The test `parsed.ok === false` of the second variant's usability guard. -/
def okFieldFalse (parsed : Js) : Bool :=
  match parsed.get "ok" with
  | .bool false => true
  | _ => false

/-- The full line-350 guard of the second variant:
`!parsed || parsed.ok === false || !Array.isArray(parsed.programs)` — a
falsy parse result (`null` included), an explicit `ok:false` payload, or a
missing/non-array `programs` field all make the output unusable. -/
def unusable2 (parsed : Js) : Bool :=
  !parsed.truthy || okFieldFalse parsed || !(parsed.get "programs").isArray

/-- Variant 2 hard-failure envelope for unusable extraction output, with the
raw text echoed: status 502 in the source. -/
def jfailRaw (rawText : Js) : Resp :=
  jResp (jsObjOfList [
    ("ok", .bool false),
    ("error", .str "AI returned no usable programs"),
    ("raw", rawText)]) 502

/-- The body of variant 2 inside its top-level `try`.  Note: no
zero-results check, no quota special case, no fallback candidates, and a
hard 500 on a missing OpenAI credential. -/
def run2 (env : Env) (req : Req) (tavily openai : FetchResp) : Except String Resp :=
  let pref := normalizeReq req.params
  if envFalsy env.tavilyKey then .ok (jfail "Missing TAVILY_API_KEY" 500)
  else if !tavily.isOk then
    .ok (jfail ("Tavily HTTP " ++ toString tavily.status ++ ": " ++ tavily.body) 502)
  else
    match jsonParse tavily.body with
    | none => .error "SyntaxError: Unexpected end of JSON input"
    | some tj =>
      if tj.isNullish then .error "TypeError: Cannot destructure property results of null"
      else
        let results := destructResults tj
        if !results.isArray then .error "TypeError: results.map is not a function"
        else
          match mkSnippets results.arrElems with
          | .error e => .error e
          | .ok sn =>
            let _ := digest2 sn
            if envFalsy env.openaiKey then .ok (jfail "Missing OPENAI_API_KEY" 500)
            else if !openai.isOk then
              .ok (jfail ("OpenAI HTTP " ++ toString openai.status ++ ": " ++ openai.body) 502)
            else
              match jsonParse openai.body with
              | none => .error "SyntaxError: Unexpected end of JSON input"
              | some data =>
                let rawText := extractRawText2 data
                match parseChain2 rawText with
                | .error e => .error e
                | .ok parsed =>
                  if unusable2 parsed then .ok (jfailRaw rawText)
                  else
                    match normList2 ((parsed.get "programs").arrElems.take 3) with
                    | .error e => .error e
                    | .ok progs =>
                        .ok (success200 pref progs ((parsed.get "notes").coalesce .null))

/-- Variant 2 handler: `OPTIONS` preflight, then the `try/catch` around
`run2`. -/
def handler2 (env : Env) (req : Req) (tavily openai : FetchResp) : Resp :=
  if req.method == "OPTIONS" then jResp (jsObjOfList [("ok", .bool true)]) 200
  else
    match run2 env req tavily openai with
    | .ok r => r
    | .error m => jfail m 500

/-- The bytes the caller observes: status line plus serialized JSON body. -/
def serializeResp (r : Resp) : String :=
  toString r.status ++ " " ++ jsStringify r.body

/-! ## Invariants of normalized entries -/

/-- A field value that is a finite number or `null` (never a string, NaN or
an infinity). -/
def numOrNull (v : Js) : Prop := (∃ m e, v = .num (.finite m e)) ∨ v = .null

/-- A field value that is a literal boolean or `null`. -/
def boolOrNull (v : Js) : Prop := (∃ b, v = .bool b) ∨ v = .null

/-- The Candidate Program field invariants claimed for `tuition`, `score`
and `stem`. -/
def goodEntry (p : Js) : Prop :=
  numOrNull (p.get "tuition") ∧ numOrNull (p.get "score") ∧ boolOrNull (p.get "stem")

lemma coerceNum_spec (v : Js) : numOrNull (coerceNum v) := by
  cases v with
  | num n =>
    cases n with
    | finite m e => exact Or.inl ⟨m, e, rfl⟩
    | nan => exact Or.inr rfl
    | posInf => exact Or.inr rfl
    | negInf => exact Or.inr rfl
  | undefined => exact Or.inr rfl
  | null => exact Or.inr rfl
  | bool b => exact Or.inr rfl
  | str s => exact Or.inr rfl
  | arrNil => exact Or.inr rfl
  | arrCons h t => exact Or.inr rfl
  | objNil => exact Or.inr rfl
  | objCons k w t => exact Or.inr rfl

lemma coerceBool_spec (v : Js) : boolOrNull (coerceBool v) := by
  cases v with
  | bool b => exact Or.inl ⟨b, rfl⟩
  | undefined => exact Or.inr rfl
  | null => exact Or.inr rfl
  | num n => exact Or.inr rfl
  | str s => exact Or.inr rfl
  | arrNil => exact Or.inr rfl
  | arrCons h t => exact Or.inr rfl
  | objNil => exact Or.inr rfl
  | objCons k w t => exact Or.inr rfl

lemma entryObj_good (n s t u m tp st d w sc : Js) (hst : boolOrNull st) :
    goodEntry (jsObjOfList [("name", n), ("school", s), ("tuition", coerceNum t), ("url", u),
      ("minGpa", m), ("testPolicy", tp), ("stem", st), ("deadline", d), ("why", w),
      ("score", coerceNum sc)]) := by
  unfold goodEntry
  rw [show Js.get (jsObjOfList [("name", n), ("school", s), ("tuition", coerceNum t), ("url", u),
      ("minGpa", m), ("testPolicy", tp), ("stem", st), ("deadline", d), ("why", w),
      ("score", coerceNum sc)]) "tuition" = coerceNum t from rfl,
    show Js.get (jsObjOfList [("name", n), ("school", s), ("tuition", coerceNum t), ("url", u),
      ("minGpa", m), ("testPolicy", tp), ("stem", st), ("deadline", d), ("why", w),
      ("score", coerceNum sc)]) "score" = coerceNum sc from rfl,
    show Js.get (jsObjOfList [("name", n), ("school", s), ("tuition", coerceNum t), ("url", u),
      ("minGpa", m), ("testPolicy", tp), ("stem", st), ("deadline", d), ("why", w),
      ("score", coerceNum sc)]) "stem" = st from rfl]
  exact ⟨coerceNum_spec t, coerceNum_spec sc, hst⟩

lemma normEntry1_good {p v : Js} (h : normEntry1 p = .ok v) : goodEntry v := by
  cases p <;> simp only [normEntry1, Js.getEx, bind, Except.bind] at h <;>
    first
      | (cases h
         exact entryObj_good _ _ _ _ _ _ _ _ _ _ (coerceBool_spec _))
      | cases h

lemma normEntry2_good {p v : Js} (h : normEntry2 p = .ok v) : goodEntry v := by
  cases p <;> simp only [normEntry2, Js.getEx, bind, Except.bind] at h <;>
    first
      | (cases h
         exact entryObj_good _ _ _ _ _ _ _ _ _ _ (Or.inl ⟨_, rfl⟩))
      | cases h

lemma normList1_good {l l' : List Js} (h : normList1 l = .ok l') :
    l'.length = l.length ∧ ∀ p ∈ l', goodEntry p := by
  induction l generalizing l' with
  | nil =>
    simp only [normList1] at h
    cases h
    exact ⟨rfl, by intro p hp; cases hp⟩
  | cons x xs ih =>
    simp only [normList1, bind, Except.bind] at h
    cases hx : normEntry1 x with
    | error e => rw [hx] at h; cases h
    | ok v =>
      rw [hx] at h
      cases hr : normList1 xs with
      | error e => rw [hr] at h; cases h
      | ok rest =>
        rw [hr] at h
        cases h
        obtain ⟨hlen, hall⟩ := ih hr
        refine ⟨by simp [hlen], ?_⟩
        intro p hp
        cases hp with
        | head => exact normEntry1_good hx
        | tail _ hm => exact hall p hm

lemma normList2_good {l l' : List Js} (h : normList2 l = .ok l') :
    l'.length = l.length ∧ ∀ p ∈ l', goodEntry p := by
  induction l generalizing l' with
  | nil =>
    simp only [normList2] at h
    cases h
    exact ⟨rfl, by intro p hp; cases hp⟩
  | cons x xs ih =>
    simp only [normList2, bind, Except.bind] at h
    cases hx : normEntry2 x with
    | error e => rw [hx] at h; cases h
    | ok v =>
      rw [hx] at h
      cases hr : normList2 xs with
      | error e => rw [hr] at h; cases h
      | ok rest =>
        rw [hr] at h
        cases h
        obtain ⟨hlen, hall⟩ := ih hr
        refine ⟨by simp [hlen], ?_⟩
        intro p hp
        cases hp with
        | head => exact normEntry2_good hx
        | tail _ hm => exact hall p hm

lemma fallbackProgram_good (program : String) (r : Snip) :
    goodEntry (fallbackProgram program r) :=
  ⟨Or.inr rfl, Or.inr rfl, Or.inr rfl⟩

lemma fallbackPrograms_good (program : String) (sn : List Snip) :
    (fallbackPrograms program sn).length ≤ 3 ∧
      ∀ p ∈ fallbackPrograms program sn, goodEntry p := by
  constructor
  · calc (fallbackPrograms program sn).length = (sn.take 3).length := by
          simp [fallbackPrograms]
      _ ≤ 3 := List.length_take_le 3 sn
  · intro p hp
    simp only [fallbackPrograms, List.mem_map] at hp
    obtain ⟨r, _, rfl⟩ := hp
    exact fallbackProgram_good program r

lemma aiParse1_some {data : Js} {ps : List Js} {note : Js}
    (h : aiParse1 data = (some ps, note)) :
    ps.length ≤ 3 ∧ ∀ p ∈ ps, goodEntry p := by
  unfold aiParse1 at h
  dsimp only at h
  repeat' split at h
  all_goals simp_all
  all_goals
    obtain ⟨hlen, hall⟩ := normList1_good (by assumption)
    exact ⟨by rw [hlen]; exact List.length_take_le 3 _, hall⟩

lemma extractStage1_some {pref : Prefs} {k : Option String} {o : FetchResp}
    {ps : List Js} {note : Js}
    (h : extractStage1 pref k o = .ok (some ps, note)) :
    ps.length ≤ 3 ∧ ∀ p ∈ ps, goodEntry p := by
  unfold extractStage1 at h
  repeat' split at h
  all_goals simp_all
  all_goals exact aiParse1_some (by assumption)

/-- Every `.ok` outcome of variant 1's body is either a success envelope
with at most 3 well-coerced candidates, or an `ok:false` error envelope. -/
lemma run1_ok_shape {env : Env} {req : Req} {t o : FetchResp} {r : Resp}
    (h : run1 env req t o = .ok r) :
    (∃ ps note, r = success200 (normalizeReq req.params) ps note ∧
        ps.length ≤ 3 ∧ ∀ p ∈ ps, goodEntry p)
    ∨ r.body.get "ok" = .bool false := by
  unfold run1 at h
  dsimp only at h
  repeat' split at h
  all_goals (try (cases h; right; rfl))
  all_goals (try cases h)
  all_goals
    first
      | (left
         refine ⟨_, _, rfl, ?_⟩
         exact extractStage1_some (by assumption))
      | (left
         refine ⟨_, _, rfl, ?_⟩
         exact fallbackPrograms_good _ _)

/-- Every `.ok` outcome of variant 2's body is either a success envelope
with at most 3 well-coerced candidates, or an `ok:false` error envelope. -/
lemma run2_ok_shape {env : Env} {req : Req} {t o : FetchResp} {r : Resp}
    (h : run2 env req t o = .ok r) :
    (∃ ps note, r = success200 (normalizeReq req.params) ps note ∧
        ps.length ≤ 3 ∧ ∀ p ∈ ps, goodEntry p)
    ∨ r.body.get "ok" = .bool false := by
  unfold run2 at h
  dsimp only at h
  repeat' split at h
  all_goals (try (cases h; right; rfl))
  all_goals (try cases h)
  all_goals
    left
    refine ⟨_, _, rfl, ?_⟩
    obtain ⟨hlen, hall⟩ := normList2_good (by assumption)
    exact ⟨by rw [hlen]; exact List.length_take_le 3 _, hall⟩

/-! ## Response-level predicates -/

/-- The envelope's `ok` field is literally `true`. -/
def okTrue (r : Resp) : Prop := r.body.get "ok" = .bool true

/-- The envelope carries a `programs` array of at most 3 entries whose exact
length is the `count` field. -/
def progCountInv (r : Resp) : Prop :=
  ∃ ps, r.body.get "programs" = jsArrOfList ps ∧ ps.length ≤ 3 ∧
    r.body.get "count" = .num (.finite (ps.length : Int) 0)

/-- Every entry of the envelope's `programs` array satisfies the Candidate
Program field invariants. -/
def entriesGood (r : Resp) : Prop :=
  ∀ ps, r.body.get "programs" = jsArrOfList ps → ∀ p ∈ ps, goodEntry p

lemma jsArrOfList_inj {l l' : List Js} (h : jsArrOfList l = jsArrOfList l') : l = l' := by
  induction l generalizing l' with
  | nil => cases l' with
    | nil => rfl
    | cons x xs => cases h
  | cons x xs ih =>
    cases l' with
    | nil => cases h
    | cons y ys =>
      simp only [jsArrOfList] at h
      injection h with h1 h2
      rw [h1, ih h2]

lemma success200_get_ok (p : Prefs) (ps : List Js) (n : Js) :
    (success200 p ps n).body.get "ok" = .bool true := rfl

lemma success200_get_programs (p : Prefs) (ps : List Js) (n : Js) :
    (success200 p ps n).body.get "programs" = jsArrOfList ps := rfl

lemma success200_get_notes (p : Prefs) (ps : List Js) (n : Js) :
    (success200 p ps n).body.get "notes" = n := rfl

lemma success200_get_count (p : Prefs) (ps : List Js) (n : Js) :
    (success200 p ps n).body.get "count" = .num (.finite (ps.length : Int) 0) := rfl

lemma jfail_get_ok (m : String) (s : Nat) : (jfail m s).body.get "ok" = .bool false := rfl

/-- The handler-level version of `run1_ok_shape` for non-preflight
requests. -/
lemma handler1_shape (env : Env) (req : Req) (t o : FetchResp)
    (hm : (req.method == "OPTIONS") = false) :
    (∃ ps note, handler1 env req t o = success200 (normalizeReq req.params) ps note ∧
        ps.length ≤ 3 ∧ ∀ p ∈ ps, goodEntry p)
    ∨ (handler1 env req t o).body.get "ok" = .bool false := by
  unfold handler1
  rw [hm]
  simp only [Bool.false_eq_true, if_false]
  cases hr : run1 env req t o with
  | error m => right; exact jfail_get_ok m 500
  | ok r => exact run1_ok_shape hr

/-- The handler-level version of `run2_ok_shape` for non-preflight
requests. -/
lemma handler2_shape (env : Env) (req : Req) (t o : FetchResp)
    (hm : (req.method == "OPTIONS") = false) :
    (∃ ps note, handler2 env req t o = success200 (normalizeReq req.params) ps note ∧
        ps.length ≤ 3 ∧ ∀ p ∈ ps, goodEntry p)
    ∨ (handler2 env req t o).body.get "ok" = .bool false := by
  unfold handler2
  rw [hm]
  simp only [Bool.false_eq_true, if_false]
  cases hr : run2 env req t o with
  | error m => right; exact jfail_get_ok m 500
  | ok r => exact run2_ok_shape hr

lemma progCountInv_of_shape {r : Resp} {pref : Prefs}
    (h : (∃ ps note, r = success200 pref ps note ∧ ps.length ≤ 3 ∧ ∀ q ∈ ps, goodEntry q)
      ∨ r.body.get "ok" = .bool false)
    (hok : okTrue r) : progCountInv r := by
  rcases h with ⟨ps, note, rfl, hlen, _⟩ | hfalse
  · exact ⟨ps, success200_get_programs pref ps note, hlen, success200_get_count pref ps note⟩
  · unfold okTrue at hok
    rw [hok] at hfalse
    exact absurd (Js.bool.inj hfalse) (by simp)

lemma entriesGood_of_shape {r : Resp} {pref : Prefs}
    (h : (∃ ps note, r = success200 pref ps note ∧ ps.length ≤ 3 ∧ ∀ q ∈ ps, goodEntry q)
      ∨ r.body.get "ok" = .bool false)
    (hok : okTrue r) : entriesGood r := by
  rcases h with ⟨ps, note, rfl, _, hg⟩ | hfalse
  · intro qs hqs q hq
    rw [success200_get_programs pref ps note] at hqs
    cases jsArrOfList_inj hqs
    exact hg q hq
  · unfold okTrue at hok
    rw [hok] at hfalse
    exact absurd (Js.bool.inj hfalse) (by simp)

lemma jsArrOfList_isArray (l : List Js) : (jsArrOfList l).isArray = true := by
  cases l <;> rfl

lemma jsArrOfList_arrElems (l : List Js) : (jsArrOfList l).arrElems = l := by
  induction l with
  | nil => rfl
  | cons x xs ih => simp only [jsArrOfList, Js.arrElems]; rw [ih]

/-! ## The claims -/

/-- Claim C1: for every request that produces a success envelope (`ok:true`)
on a non-preflight path, in either handler variant, the `programs` field is
an array of at most 3 entries and `count` equals its exact length. -/
theorem claim_C1_programs_capped_count_exact (env : Env) (req : Req) (t o : FetchResp)
    (hm : (req.method == "OPTIONS") = false) :
    (okTrue (handler1 env req t o) → progCountInv (handler1 env req t o)) ∧
    (okTrue (handler2 env req t o) → progCountInv (handler2 env req t o)) := by
  constructor
  · intro hok
    exact progCountInv_of_shape (handler1_shape env req t o hm) hok
  · intro hok
    exact progCountInv_of_shape (handler2_shape env req t o hm) hok

/-- Claim C2: in every Candidate Program entry of any success response of
either variant, `tuition` and `score` are a finite number or `null` (never a
string, NaN or an infinity) and `stem` is a literal boolean or `null`. -/
theorem claim_C2_field_coercion (env : Env) (req : Req) (t o : FetchResp)
    (hm : (req.method == "OPTIONS") = false) :
    (okTrue (handler1 env req t o) → entriesGood (handler1 env req t o)) ∧
    (okTrue (handler2 env req t o) → entriesGood (handler2 env req t o)) := by
  constructor
  · intro hok
    exact entriesGood_of_shape (handler1_shape env req t o hm) hok
  · intro hok
    exact entriesGood_of_shape (handler2_shape env req t o hm) hok

/-- Claim C3, amended: in the FIRST handler variant, a successful search
response whose `results` field is the empty array yields the `ok:false`
404 envelope (and extraction is never reached).  The second variant has no
zero-results check at all — see the counterexample. -/
theorem claim_C3_amended (env : Env) (req : Req) (t o : FetchResp)
    (hm : (req.method == "OPTIONS") = false)
    (hk : envFalsy env.tavilyKey = false)
    (hok : t.isOk = true)
    (tj : Js) (hp : jsonParse t.body = some tj)
    (hn : tj.isNullish = false)
    (hr : destructResults tj = jsArrOfList []) :
    handler1 env req t o = jfail "No web results found" 404 := by
  unfold handler1
  rw [hm]
  simp only [Bool.false_eq_true, if_false]
  unfold run1
  simp only [hk, hok, hp, hn, hr, jsArrOfList, Js.isArray, Js.arrElems, List.isEmpty_nil,
    Bool.false_eq_true, Bool.not_true, Bool.not_false, if_false, if_true, Bool.false_or,
    Bool.true_or, Bool.or_true, eq_self_iff_true]

/-- Claim C4, amended: in the FIRST handler variant, a language-model
response with status 429 or rate/quota phrasing in the body is absorbed:
the handler returns the 200 success envelope built from the snippet
fallback candidates with the `OpenAI limit/quota:` note.  The second
variant propagates every non-success language-model status, including 429,
as a hard 502 — see the counterexample. -/
theorem claim_C4_amended (env : Env) (req : Req) (t o : FetchResp)
    (hm : (req.method == "OPTIONS") = false)
    (hk : envFalsy env.tavilyKey = false)
    (hok : t.isOk = true)
    (tj : Js) (hp : jsonParse t.body = some tj)
    (hn : tj.isNullish = false)
    (rs : List Js) (hr : destructResults tj = jsArrOfList rs) (hne : rs.isEmpty = false)
    (sn : List Snip) (hs : mkSnippets rs = .ok sn)
    (hoff : (normalizeReq req.params).openaiOff = false)
    (hkey : envFalsy env.openaiKey = false)
    (hnok : o.isOk = false)
    (hq : (o.status == 429 || rateQuota o.body) = true) :
    handler1 env req t o =
      success200 (normalizeReq req.params)
        (fallbackPrograms (normalizeReq req.params).program sn)
        (.str ("OpenAI limit/quota: " ++ o.body)) := by
  unfold handler1
  rw [hm]
  simp only [Bool.false_eq_true, if_false]
  unfold run1 extractStage1
  simp only [hk, hok, hp, hn, hr, hne, hs, hoff, hkey, hnok, hq, jsArrOfList_isArray,
    jsArrOfList_arrElems, Bool.false_eq_true, Bool.not_true, Bool.not_false, if_false,
    if_true, Bool.and_self, Bool.false_or, Bool.or_false, eq_self_iff_true]

/-- Claim C5, amended: the FIRST handler variant performs only a strict
`JSON.parse` of the language-model text — there is no brace-substring
retry — and on failure it records the parse-failure note and still returns
the 200 success envelope with snippet fallback candidates.  (The second
variant does retry a first-to-last-brace substring, but on total failure
returns a hard 502 rather than a fallback.) -/
theorem claim_C5_amended (env : Env) (req : Req) (t o : FetchResp)
    (hm : (req.method == "OPTIONS") = false)
    (hk : envFalsy env.tavilyKey = false)
    (hok : t.isOk = true)
    (tj : Js) (hp : jsonParse t.body = some tj)
    (hn : tj.isNullish = false)
    (rs : List Js) (hr : destructResults tj = jsArrOfList rs) (hne : rs.isEmpty = false)
    (sn : List Snip) (hs : mkSnippets rs = .ok sn)
    (hoff : (normalizeReq req.params).openaiOff = false)
    (hkey : envFalsy env.openaiKey = false)
    (ho2 : o.isOk = true)
    (data : Js) (hd : jsonParse o.body = some data)
    (hpf : jsonParse (jsToString ((data.optGet "output_text").coalesce (.str ""))) = none) :
    handler1 env req t o =
      success200 (normalizeReq req.params)
        (fallbackPrograms (normalizeReq req.params).program sn)
        (.str "OpenAI JSON parse failed; showing web candidates") := by
  unfold handler1
  rw [hm]
  simp only [Bool.false_eq_true, if_false]
  unfold run1 extractStage1 aiParse1
  simp only [hk, hok, hp, hn, hr, hne, hs, hoff, hkey, ho2, hd, hpf, jsArrOfList_isArray,
    jsArrOfList_arrElems, Bool.false_eq_true, Bool.not_true, Bool.not_false, if_false,
    if_true, Bool.and_self, Bool.false_or, Bool.or_false, eq_self_iff_true]

/-- Claim C6, amended: in the FIRST handler variant, an absent language-model
credential bypasses extraction: the missing-credential note is recorded and
the handler returns the 200 success envelope with snippet fallback
candidates.  The second variant returns a hard 500 instead — see the
counterexample. -/
theorem claim_C6_amended (env : Env) (req : Req) (t o : FetchResp)
    (hm : (req.method == "OPTIONS") = false)
    (hk : envFalsy env.tavilyKey = false)
    (hok : t.isOk = true)
    (tj : Js) (hp : jsonParse t.body = some tj)
    (hn : tj.isNullish = false)
    (rs : List Js) (hr : destructResults tj = jsArrOfList rs) (hne : rs.isEmpty = false)
    (sn : List Snip) (hs : mkSnippets rs = .ok sn)
    (hoff : (normalizeReq req.params).openaiOff = false)
    (hkey : envFalsy env.openaiKey = true) :
    handler1 env req t o =
      success200 (normalizeReq req.params)
        (fallbackPrograms (normalizeReq req.params).program sn)
        (.str "Missing OPENAI_API_KEY — showing web candidates") := by
  unfold handler1
  rw [hm]
  simp only [Bool.false_eq_true, if_false]
  unfold run1 extractStage1
  simp only [hk, hok, hp, hn, hr, hne, hs, hoff, hkey, jsArrOfList_isArray,
    jsArrOfList_arrElems, Bool.false_eq_true, Bool.not_true, Bool.not_false, if_false,
    if_true, Bool.and_self, Bool.and_false, Bool.false_and, Bool.true_and, Bool.and_true,
    Bool.false_or, Bool.or_false, eq_self_iff_true]

/-- Claim C7, amended: when structured output is mandatory (the second
variant, which has no fallback) and the language-model output yields no
usable `programs` array — a falsy parse result (including the `null` of a
failed brace match), an explicit `ok:false` payload, or a missing/non-array
`programs` field, i.e. the whole `unusable2` guard of the source's line
350 — the handler returns the hard-failure envelope `AI returned no usable
programs` with HTTP status 502, not the 424 stated by the spec. -/
theorem claim_C7_amended (env : Env) (req : Req) (t o : FetchResp)
    (hm : (req.method == "OPTIONS") = false)
    (hk : envFalsy env.tavilyKey = false)
    (hok : t.isOk = true)
    (tj : Js) (hp : jsonParse t.body = some tj)
    (hn : tj.isNullish = false)
    (rs : List Js) (hr : destructResults tj = jsArrOfList rs)
    (sn : List Snip) (hs : mkSnippets rs = .ok sn)
    (hkey : envFalsy env.openaiKey = false)
    (ho2 : o.isOk = true)
    (data : Js) (hd : jsonParse o.body = some data)
    (parsed : Js) (hpc : parseChain2 (extractRawText2 data) = .ok parsed)
    (hun : unusable2 parsed = true) :
    handler2 env req t o = jfailRaw (extractRawText2 data) ∧
      (handler2 env req t o).status = 502 := by
  have hmain : handler2 env req t o = jfailRaw (extractRawText2 data) := by
    unfold handler2
    rw [hm]
    simp only [Bool.false_eq_true, if_false]
    unfold run2
    simp only [hk, hok, hp, hn, hr, hs, hkey, ho2, hd, hpc, hun, jsArrOfList_isArray,
      jsArrOfList_arrElems, Bool.false_eq_true, Bool.not_true, Bool.not_false, if_false,
      if_true, eq_self_iff_true]
  exact ⟨hmain, by rw [hmain]; rfl⟩

/-- Claim C8, amended: the FIRST variant's digest is hard-truncated with
`.slice(0, 4000)`, so its length never exceeds 4000 characters.  The second
variant applies no truncation — see the counterexample. -/
theorem claim_C8_amended (sn : List Snip) : (digest1 sn).length ≤ 4000 := by
  unfold digest1 strSlice
  rw [show (String.mk ((digestBlocks sn).data.take 4000)).length
        = ((digestBlocks sn).data.take 4000).length from rfl]
  exact List.length_take_le 4000 _

/-- Claim C9: both handler variants are pure functions of the raw request,
the environment and the two (mocked) upstream responses: equal inputs give
byte-identical serialized Response Envelopes. -/
theorem claim_C9_deterministic (env1 env2 : Env) (req1 req2 : Req)
    (t1 t2 o1 o2 : FetchResp)
    (henv : env1 = env2) (hreq : req1 = req2) (ht : t1 = t2) (ho : o1 = o2) :
    serializeResp (handler1 env1 req1 t1 o1) = serializeResp (handler1 env2 req2 t2 o2) ∧
    serializeResp (handler2 env1 req1 t1 o1) = serializeResp (handler2 env2 req2 t2 o2) := by
  subst henv hreq ht ho
  exact ⟨rfl, rfl⟩

/-- Claim C10: in the first handler variant, a language-model payload that
parses to a truthy value whose `programs` field is the EMPTY array yields
`ok:true` with `programs = []` and `count = 0`: the snippet fallback is used
only when extraction produced no array at all (`aiPrograms ?? ...` does not
trigger on `[]`). -/
theorem claim_C10_empty_programs_no_fallback (env : Env) (req : Req) (t o : FetchResp)
    (hm : (req.method == "OPTIONS") = false)
    (hk : envFalsy env.tavilyKey = false)
    (hok : t.isOk = true)
    (tj : Js) (hp : jsonParse t.body = some tj)
    (hn : tj.isNullish = false)
    (rs : List Js) (hr : destructResults tj = jsArrOfList rs) (hne : rs.isEmpty = false)
    (sn : List Snip) (hs : mkSnippets rs = .ok sn)
    (hoff : (normalizeReq req.params).openaiOff = false)
    (hkey : envFalsy env.openaiKey = false)
    (ho2 : o.isOk = true)
    (data : Js) (hd : jsonParse o.body = some data)
    (parsed : Js)
    (hpp : jsonParse (jsToString ((data.optGet "output_text").coalesce (.str ""))) = some parsed)
    (htr : parsed.truthy = true)
    (hprog : parsed.get "programs" = jsArrOfList []) :
    handler1 env req t o =
      success200 (normalizeReq req.params) [] ((parsed.get "notes").coalesce .null) ∧
      (handler1 env req t o).body.get "count" = .num (.finite 0 0) := by
  have hmain : handler1 env req t o =
      success200 (normalizeReq req.params) [] ((parsed.get "notes").coalesce .null) := by
    unfold handler1
    rw [hm]
    simp only [Bool.false_eq_true, if_false]
    unfold run1 extractStage1 aiParse1
    simp only [hk, hok, hp, hn, hr, hne, hs, hoff, hkey, ho2, hd, hpp, htr, hprog,
      jsArrOfList_isArray, jsArrOfList_arrElems,
      List.take_nil, normList1, Bool.false_eq_true, Bool.not_true, Bool.not_false,
      if_false, if_true, Bool.and_self, Bool.true_and, Bool.and_true, Bool.false_or,
      Bool.or_false, eq_self_iff_true]
  refine ⟨hmain, ?_⟩
  rw [hmain, success200_get_count]
  rfl

/-! ## Concrete fixtures for witnesses and counterexamples -/

deriving instance DecidableEq for Except


/-- Environment with both credentials present. -/
def fxEnv : Env := { tavilyKey := some "tk", openaiKey := some "ok-key" }

/-- Environment with the language-model credential absent. -/
def fxEnvNoOai : Env := { tavilyKey := some "tk", openaiKey := none }

/-- A plain GET request with no query parameters. -/
def fxReq : Req := { method := "GET", params := [] }

/-- Search provider success with one result. -/
def fxTav : FetchResp :=
  { status := 200,
    body := "\x7b\"results\": [\x7b\"title\": \"MIT MS CS\", \"url\": \"https://x\", \"snippet\": \"snip\"\x7d]\x7d" }

/-- Search provider success with zero results. -/
def fxTavEmpty : FetchResp := { status := 200, body := "\x7b\"results\": []\x7d" }

/-- Language-model success whose text is valid JSON with an empty
`programs` array. -/
def fxOaiEmpty : FetchResp :=
  { status := 200,
    body := "\x7b\"output_text\": \"\x7b\\\"programs\\\": [], \\\"notes\\\": \\\"n\\\"\x7d\"\x7d" }

/-- Language-model success whose text is not JSON and has no braces. -/
def fxOaiGarbage : FetchResp :=
  { status := 200, body := "\x7b\"output_text\": \"hello\"\x7d" }

/-- Language-model success whose text is not JSON but contains a parseable
brace-delimited substring. -/
def fxOaiBrace : FetchResp :=
  { status := 200, body := "\x7b\"output_text\": \"xx \x7b\\\"programs\\\": []\x7d yy\"\x7d" }

/-- Language-model 429 rate-limit response. -/
def fxOai429 : FetchResp := { status := 429, body := "Rate limit reached" }

/-- The parsed snippet of `fxTav`. -/
def fxSnip : Snip :=
  { title := .str "MIT MS CS", url := .str "https://x", snippet := .str "snip" }

/-- Witness for C1 at a concrete success on both variants. -/
theorem claim_C1_witness :
    progCountInv (handler1 fxEnv fxReq fxTav fxOaiEmpty) ∧
    progCountInv (handler2 fxEnv fxReq fxTav fxOaiEmpty) :=
  ⟨(claim_C1_programs_capped_count_exact fxEnv fxReq fxTav fxOaiEmpty (by decide)).1
      (by unfold okTrue; decide),
   (claim_C1_programs_capped_count_exact fxEnv fxReq fxTav fxOaiEmpty (by decide)).2
      (by unfold okTrue; decide)⟩

/-- Witness for C2 at a concrete success on both variants. -/
theorem claim_C2_witness :
    entriesGood (handler1 fxEnv fxReq fxTav fxOaiEmpty) ∧
    entriesGood (handler2 fxEnv fxReq fxTav fxOaiEmpty) :=
  ⟨(claim_C2_field_coercion fxEnv fxReq fxTav fxOaiEmpty (by decide)).1
      (by unfold okTrue; decide),
   (claim_C2_field_coercion fxEnv fxReq fxTav fxOaiEmpty (by decide)).2
      (by unfold okTrue; decide)⟩

/-- Witness for the amended C3: variant 1 maps zero search results to the
404 error envelope. -/
theorem claim_C3_witness :
    handler1 fxEnv fxReq fxTavEmpty fxOaiEmpty = jfail "No web results found" 404 :=
  claim_C3_amended fxEnv fxReq fxTavEmpty fxOaiEmpty (by decide) (by decide) (by decide)
    (jsObjOfList [("results", .arrNil)]) (by decide) (by decide) (by decide)

/-- Counterexample to C3 as stated: in the SECOND variant a successful
search with zero results is NOT answered with 404 — extraction proceeds and
the response is a 200 success envelope. -/
theorem claim_C3_counterexample :
    (handler2 fxEnv fxReq fxTavEmpty fxOaiEmpty).status = 200 ∧
    (handler2 fxEnv fxReq fxTavEmpty fxOaiEmpty).body.get "ok" = .bool true := by
  constructor <;> decide

/-- Witness for the amended C4: variant 1 absorbs a 429 into the quota note
and the snippet fallback. -/
theorem claim_C4_witness :
    handler1 fxEnv fxReq fxTav fxOai429 =
      success200 (normalizeReq fxReq.params)
        (fallbackPrograms (normalizeReq fxReq.params).program [fxSnip])
        (.str ("OpenAI limit/quota: " ++ fxOai429.body)) :=
  claim_C4_amended fxEnv fxReq fxTav fxOai429 (by decide) (by decide) (by decide)
    (jsObjOfList [("results",
      jsArrOfList [jsObjOfList [("title", .str "MIT MS CS"), ("url", .str "https://x"),
        ("snippet", .str "snip")]])])
    (by decide) (by decide)
    [jsObjOfList [("title", .str "MIT MS CS"), ("url", .str "https://x"),
      ("snippet", .str "snip")]]
    (by decide) (by decide) [fxSnip] (by decide) (by decide) (by decide) (by decide)
    (by decide)

/-- Counterexample to C4 as stated: the SECOND variant turns a 429 from the
language-model provider into a hard 502 error envelope, not a success. -/
theorem claim_C4_counterexample :
    handler2 fxEnv fxReq fxTav fxOai429 =
      jfail "OpenAI HTTP 429: Rate limit reached" 502 ∧
    (handler2 fxEnv fxReq fxTav fxOai429).body.get "ok" = .bool false := by
  constructor <;> decide

/-- Witness for the amended C5: variant 1 answers unparseable model text
with the parse-failure note and the snippet fallback, still `ok:true`. -/
theorem claim_C5_witness :
    handler1 fxEnv fxReq fxTav fxOaiGarbage =
      success200 (normalizeReq fxReq.params)
        (fallbackPrograms (normalizeReq fxReq.params).program [fxSnip])
        (.str "OpenAI JSON parse failed; showing web candidates") :=
  claim_C5_amended fxEnv fxReq fxTav fxOaiGarbage (by decide) (by decide) (by decide)
    (jsObjOfList [("results",
      jsArrOfList [jsObjOfList [("title", .str "MIT MS CS"), ("url", .str "https://x"),
        ("snippet", .str "snip")]])])
    (by decide) (by decide)
    [jsObjOfList [("title", .str "MIT MS CS"), ("url", .str "https://x"),
      ("snippet", .str "snip")]]
    (by decide) (by decide) [fxSnip] (by decide) (by decide) (by decide) (by decide)
    (jsObjOfList [("output_text", .str "hello")]) (by decide) (by decide)

/-- Counterexample to C5 as stated: the first variant does NOT attempt the
brace-substring parse.  At a model text with a parseable brace-delimited
substring, `braceMatch` finds it and it parses, yet the handler reports the
parse-failure note and produces the snippet fallback instead of structured
output. -/
theorem claim_C5_counterexample :
    braceMatch "xx \x7b\"programs\": []\x7d yy" = some "\x7b\"programs\": []\x7d" ∧
    jsonParse "\x7b\"programs\": []\x7d" = some (jsObjOfList [("programs", .arrNil)]) ∧
    (handler1 fxEnv fxReq fxTav fxOaiBrace).body.get "notes" =
      .str "OpenAI JSON parse failed; showing web candidates" ∧
    (handler1 fxEnv fxReq fxTav fxOaiBrace).body.get "programs" =
      jsArrOfList (fallbackPrograms "Computer Science" [fxSnip]) := by
  refine ⟨by decide, by decide, by decide, by decide⟩

/-- Witness for the amended C6: variant 1 bypasses extraction on a missing
credential and still succeeds with the fallback. -/
theorem claim_C6_witness :
    handler1 fxEnvNoOai fxReq fxTav fxOaiEmpty =
      success200 (normalizeReq fxReq.params)
        (fallbackPrograms (normalizeReq fxReq.params).program [fxSnip])
        (.str "Missing OPENAI_API_KEY — showing web candidates") :=
  claim_C6_amended fxEnvNoOai fxReq fxTav fxOaiEmpty (by decide) (by decide) (by decide)
    (jsObjOfList [("results",
      jsArrOfList [jsObjOfList [("title", .str "MIT MS CS"), ("url", .str "https://x"),
        ("snippet", .str "snip")]])])
    (by decide) (by decide)
    [jsObjOfList [("title", .str "MIT MS CS"), ("url", .str "https://x"),
      ("snippet", .str "snip")]]
    (by decide) (by decide) [fxSnip] (by decide) (by decide) (by decide)

/-- Counterexample to C6 as stated: the SECOND variant treats an absent
language-model credential as a hard 500 configuration error, not a
bypass. -/
theorem claim_C6_counterexample :
    handler2 fxEnvNoOai fxReq fxTav fxOaiEmpty = jfail "Missing OPENAI_API_KEY" 500 := by
  decide

/-- Language-model success whose text parses to an object without a
`programs` array. -/
def fxOaiNoProgs : FetchResp :=
  { status := 200, body := "\x7b\"output_text\": \"\x7b\\\"foo\\\": 1\x7d\"\x7d" }

/-- Witness for the amended C7 at two concrete inputs, one for each side of
the `unusable2` guard: model text with no parseable JSON at all (the
brace-match `null`), and model text that parses to an object without a
`programs` array. -/
theorem claim_C7_witness :
    (handler2 fxEnv fxReq fxTav fxOaiGarbage = jfailRaw (.str "hello") ∧
      (handler2 fxEnv fxReq fxTav fxOaiGarbage).status = 502) ∧
    (handler2 fxEnv fxReq fxTav fxOaiNoProgs = jfailRaw (.str "\x7b\"foo\": 1\x7d") ∧
      (handler2 fxEnv fxReq fxTav fxOaiNoProgs).status = 502) := by
  constructor
  · have h := claim_C7_amended fxEnv fxReq fxTav fxOaiGarbage (by decide) (by decide)
      (by decide)
      (jsObjOfList [("results",
        jsArrOfList [jsObjOfList [("title", .str "MIT MS CS"), ("url", .str "https://x"),
          ("snippet", .str "snip")]])])
      (by decide) (by decide)
      [jsObjOfList [("title", .str "MIT MS CS"), ("url", .str "https://x"),
        ("snippet", .str "snip")]]
      (by decide) [fxSnip] (by decide) (by decide) (by decide)
      (jsObjOfList [("output_text", .str "hello")]) (by decide)
      Js.null (by decide) (by decide)
    exact ⟨by rw [h.1]; rfl, h.2⟩
  · have h := claim_C7_amended fxEnv fxReq fxTav fxOaiNoProgs (by decide) (by decide)
      (by decide)
      (jsObjOfList [("results",
        jsArrOfList [jsObjOfList [("title", .str "MIT MS CS"), ("url", .str "https://x"),
          ("snippet", .str "snip")]])])
      (by decide) (by decide)
      [jsObjOfList [("title", .str "MIT MS CS"), ("url", .str "https://x"),
        ("snippet", .str "snip")]]
      (by decide) [fxSnip] (by decide) (by decide) (by decide)
      (jsObjOfList [("output_text", .str "\x7b\"foo\": 1\x7d")]) (by decide)
      (jsObjOfList [("foo", .num (.finite 1 0))]) (by decide) (by decide)
    exact ⟨by rw [h.1]; rfl, h.2⟩

/-- Counterexample to C7 as stated: the status of the unusable-output hard
failure is 502, never the 424 the claim asserts. -/
theorem claim_C7_counterexample :
    (handler2 fxEnv fxReq fxTav fxOaiGarbage).status = 502 ∧
    (handler2 fxEnv fxReq fxTav fxOaiGarbage).status ≠ 424 := by
  constructor <;> decide

/-- A snippet whose excerpt alone exceeds the 4000-character budget. -/
def longSnip : Snip :=
  { title := .str "T", url := .str "U",
    snippet := .str (String.mk (List.replicate 4100 'a')) }

lemma digest2_single (t u s : String) :
    digest2 [{ title := .str t, url := .str u, snippet := .str s }] =
      "#" ++ toString (0 + 1) ++ " " ++ t ++ "\n" ++ s ++ "\nURL: " ++ u := by
  simp [digest2, digestBlocks, jsToString,
    show ∀ x : String, String.intercalate "\n\n" [x] = x from fun _ => rfl]

/-- Counterexample to C8 as stated: the SECOND variant never truncates the
digest, so a long snippet pushes it past the 4000-character budget. -/
theorem claim_C8_counterexample : 4000 < (digest2 [longSnip]).length := by
  rw [show longSnip =
        { title := .str "T", url := .str "U",
          snippet := .str (String.mk (List.replicate 4100 'a')) } from rfl]
  rw [digest2_single]
  simp only [String.length_append, List.length_replicate,
    show (String.mk (List.replicate 4100 'a')).length
      = (List.replicate 4100 'a').length from rfl]
  decide

/-- Witness for C9 at concrete inputs. -/
theorem claim_C9_witness :
    serializeResp (handler1 fxEnv fxReq fxTav fxOaiEmpty) =
      serializeResp (handler1 fxEnv fxReq fxTav fxOaiEmpty) ∧
    serializeResp (handler2 fxEnv fxReq fxTav fxOaiEmpty) =
      serializeResp (handler2 fxEnv fxReq fxTav fxOaiEmpty) :=
  claim_C9_deterministic fxEnv fxEnv fxReq fxReq fxTav fxTav fxOaiEmpty fxOaiEmpty
    rfl rfl rfl rfl

/-- Witness for C10: the empty-`programs` payload yields `ok:true`,
`programs = []`, `count = 0` in variant 1. -/
theorem claim_C10_witness :
    handler1 fxEnv fxReq fxTav fxOaiEmpty =
      success200 (normalizeReq fxReq.params) []
        ((Js.get (jsObjOfList [("programs", .arrNil), ("notes", .str "n")]) "notes").coalesce
          .null) ∧
    (handler1 fxEnv fxReq fxTav fxOaiEmpty).body.get "count" = .num (.finite 0 0) :=
  claim_C10_empty_programs_no_fallback fxEnv fxReq fxTav fxOaiEmpty (by decide) (by decide)
    (by decide)
    (jsObjOfList [("results",
      jsArrOfList [jsObjOfList [("title", .str "MIT MS CS"), ("url", .str "https://x"),
        ("snippet", .str "snip")]])])
    (by decide) (by decide)
    [jsObjOfList [("title", .str "MIT MS CS"), ("url", .str "https://x"),
      ("snippet", .str "snip")]]
    (by decide) (by decide) [fxSnip] (by decide) (by decide) (by decide) (by decide)
    (jsObjOfList [("output_text", .str "\x7b\"programs\": [], \"notes\": \"n\"\x7d")])
    (by decide)
    (jsObjOfList [("programs", .arrNil), ("notes", .str "n")])
    (by decide) (by decide) (by decide)
